import Mathlib

set_option maxRecDepth 20000

/-!
Shallow embedding of `src/task2/maria_operations.py` (the DataAccessLayer of the
user-administration API) together with the older copy in
`src/src/task2/maria_operations.py` where a claim refers to it.

The store (MariaDB) and the driver (mysql.connector) are external collaborators;
they are modelled by:
  * a `reachable : Bool` flag deciding whether `mysql.connector.connect` succeeds
    (the Python helpers `_get_connection` / `_get_pydb_connection` catch the
    connect error themselves and return `None`);
  * a fault-injection list `faults : List (Option PyErr)`: each fallible driver
    call (`cursor.execute`, `cursor.fetchall`, `cnx.commit`) pops one entry;
    `some e` makes that call raise `e`, `none` lets the store's deterministic
    semantics (`execSem`) decide;
  * a `Store` state giving the deterministic semantics of exactly the statement
    forms this layer submits (create-database-if-absent, create table, drop
    trigger, select users, parameterized insert, drop-user-if-exists); any other
    text is a SQL syntax error (errno 1064), which is how the store answers an
    incomplete statement fragment.

Every operation returns an `OpResult`: the outcome (`.error e` would mean a
Python exception escaped the operation, `.ok resp` is the returned response
dict), the store after the call, and the ordered trace of driver events
(connection opened/closed, statement executed with its SQL text and bound
parameters, fetch, commit, rollback).
-/

namespace MariaOps

/-- One row of the `mysql.user` relation as the dictionary cursor returns it
under the aliases `User AS username, Host AS host`. -/
structure UserRecord where
  username : String
  host : String
  deriving Repr, DecidableEq

/-- The response envelope every operation returns: the Python dict with keys
`success`, `message` and (only for listUsers on success) `data`. -/
structure OperationResponse where
  success : Bool
  message : String
  data : Option (List UserRecord) := none
  deriving Repr, DecidableEq

/-- A Python exception raised by the driver: `dbErr` is `mysql.connector.Error`
(with its `errno` and `msg`), `exc` is any other `Exception`. -/
inductive PyErr where
  | dbErr (errno : Nat) (msg : String)
  | exc (msg : String)
  deriving Repr, DecidableEq

/-- State of the external store: which databases exist, the rows of
`mysql.user`, whether the `mysqli_logs` table exists, and which triggers
exist. -/
structure Store where
  dbs : List String
  users : List UserRecord
  logsTable : Bool
  triggers : List String
  deriving Repr, DecidableEq

/-- A store with no databases, no user rows, no logs table, no triggers. -/
def emptyStore : Store := { dbs := [], users := [], logsTable := false, triggers := [] }

/-- Driver events in the order the operation performs them. -/
inductive Event where
  | openConn
  | execStmt (sql : String) (params : List String)
  | fetchAll
  | commit
  | rollback
  | closeCursor
  | closeConn
  deriving Repr, DecidableEq

/-- Result of running one operation: the outcome (`.error` would be an escaped
exception), the store afterwards, and the driver-event trace. -/
structure OpResult where
  outcome : Except PyErr OperationResponse
  store : Store
  events : List Event
  deriving Repr

/-- Response an operation returned; the fallback branch is never reached
because no operation lets an exception escape (proved below). -/
def opResp (r : OpResult) : OperationResponse :=
  match r.outcome with
  | .ok resp => resp
  | .error e =>
    { success := false
      message := match e with | .dbErr _ m => m | .exc m => m
      data := none }

/-- Module constants of `maria_operations.py`. -/
def _HOST : String := "localhost"

/-- Port constant of the module. -/
def _PORT : Nat := 3306

/-- Target database name constant of the module. -/
def _DB : String := "python_db"

/-- Success message of `_get_pydb_connection` (f-string instantiated at the
module constants). -/
def pydbConnOkMsg : String := "Connection to localhost:3306, db python_db successful"

/-- Success message of `_get_connection`. -/
def connOkMsg : String := "Connection to localhost:3306 successful"

/-- Rendering of a driver exception by a Python f-string placeholder. -/
def errText : PyErr → String
  | .dbErr errno msg => toString errno ++ ": " ++ msg
  | .exc msg => msg

/-- Statement `db_init` executes; the f-string instantiated at `_DB`. -/
def createDbSql : String := "CREATE DATABASE IF NOT EXISTS `python_db`;"

/-- The `create_table_query` literal of `mysqli_logs_init`, byte for byte. -/
def create_table_query : String := "\n            CREATE TABLE mysql.mysqli_logs (\n                log_id INT AUTO_INCREMENT PRIMARY KEY,\n                user_id INT,\n                action_type ENUM('INSERT', 'UPDATE', 'DELETE'),\n                action_time TIMESTAMP DEFAULT CURRENT_TIMESTAMP\n            );"

/-- The `create_triggers_query` literal of `mysqli_logs_init`, byte for byte
(including the indentation and the blank lines between the trigger blocks). -/
def create_triggers_query : String := "\n            DROP TRIGGER IF EXISTS after_user_insert;\n            CREATE TRIGGER after_user_insert\n            AFTER INSERT ON mysqli_users\n            FOR EACH ROW\n            BEGIN\n                INSERT INTO mysqli_logs (user_id, action_type)\n                VALUES (NEW.id, 'INSERT');\n            END;\n            \n            DROP TRIGGER IF EXISTS after_user_update;\n            CREATE TRIGGER after_user_update\n            AFTER UPDATE ON mysqli_users\n            FOR EACH ROW\n            BEGIN\n                INSERT INTO mysqli_logs (user_id, action_type)\n                VALUES (NEW.id, 'UPDATE');\n            END;\n\n            DROP TRIGGER IF EXISTS after_user_delete;\n            CREATE TRIGGER after_user_delete\n            AFTER DELETE ON mysqli_users\n            FOR EACH ROW\n            BEGIN\n                INSERT INTO mysqli_logs (user_id, action_type)\n                VALUES (OLD.id, 'DELETE');\n            END;\n        "

/-- Python `str.split(sep)` for a one-character separator, over the character
list: fragments between separator occurrences, keeping empty fragments. -/
def pySplitChars (sep : Char) : List Char → List (List Char)
  | [] => [[]]
  | c :: cs =>
    match pySplitChars sep cs with
    | [] => [[c]]
    | f :: rest => if c = sep then [] :: f :: rest else (c :: f) :: rest

/-- Python `s.split(sep)` as a String operation. -/
def pySplit (s : String) (sep : Char) : List String :=
  (pySplitChars sep s.data).map (fun cs => String.mk cs)

/-- Python `s.strip()`: drop leading and trailing whitespace. -/
def pyStrip (s : String) : String :=
  String.mk (((s.data.dropWhile Char.isWhitespace).reverse.dropWhile Char.isWhitespace).reverse)

/-- Fragments `mysqli_logs_init` iterates over: `create_triggers_query.split(';')`. -/
def trigger_queries : List String := pySplit create_triggers_query ';'

/-- Statement `get_all_users` executes. -/
def selectUsersSql : String := "SELECT User AS username, Host AS host FROM mysql.user;"

/-- The `query` literal of the canonical `add_user`, byte for byte: a constant
with two `%s` placeholders; the credentials are passed separately as bound
parameters. -/
def addUserQuery : String := "\n            INSERT INTO mysql.user (User, Host, authentication_string, plugin) \n            VALUES (%s, 'localhost', PASSWORD(%s), 'mysql_native_password')\n        "

/-- The `query` literal of `delete_user` / `delete_user_by_id`. -/
def dropUserSql : String := "DROP USER IF EXISTS %s@%s;"

/-- The errno `errorcode.ER_TABLE_EXISTS_ERROR`. -/
def ER_TABLE_EXISTS_ERROR : Nat := 1050

/-- Deterministic store semantics for the statement forms this layer submits.
`CREATE DATABASE IF NOT EXISTS` and `DROP TRIGGER IF EXISTS` / `DROP USER IF
EXISTS` always succeed; creating the logs table fails with
`ER_TABLE_EXISTS_ERROR` when it already exists; the parameterized insert into
`mysql.user` fails with a duplicate-entry error (1062) when the (User, Host)
key exists; any other statement text — in particular an incomplete fragment of
a trigger definition — is a syntax error (1064). -/
def execSem (st : Store) (sql : String) (params : List String) : Except PyErr Store :=
  if sql = createDbSql then
    .ok { st with dbs := if _DB ∈ st.dbs then st.dbs else st.dbs ++ [_DB] }
  else if sql = create_table_query then
    if st.logsTable then
      .error (.dbErr ER_TABLE_EXISTS_ERROR "Table 'mysqli_logs' already exists")
    else
      .ok { st with logsTable := true }
  else if sql = "DROP TRIGGER IF EXISTS after_user_insert" then
    .ok { st with triggers := st.triggers.filter (fun t => t != "after_user_insert") }
  else if sql = "DROP TRIGGER IF EXISTS after_user_update" then
    .ok { st with triggers := st.triggers.filter (fun t => t != "after_user_update") }
  else if sql = "DROP TRIGGER IF EXISTS after_user_delete" then
    .ok { st with triggers := st.triggers.filter (fun t => t != "after_user_delete") }
  else if sql = selectUsersSql then
    .ok st
  else if sql = addUserQuery then
    match params with
    | [u, _p] =>
      if st.users.any (fun r => r.username == u && r.host == "localhost") then
        .error (.dbErr 1062 ("Duplicate entry '" ++ u ++ "-localhost' for key 'PRIMARY'"))
      else
        .ok { st with users := st.users ++ [{ username := u, host := "localhost" }] }
    | _ => .error (.exc "Not all parameters were used in the SQL statement")
  else if sql = dropUserSql then
    match params with
    | [u, h] =>
      .ok { st with users := st.users.filter (fun r => !(r.username == u && r.host == h)) }
    | _ => .error (.exc "Not all parameters were used in the SQL statement")
  else
    .error (.dbErr 1064 ("You have an error in your SQL syntax near '" ++ sql ++ "'"))

/-- Pops the outcome chosen for the next fallible driver call; an exhausted
list means no injected fault. -/
def popFault : List (Option PyErr) → Option PyErr × List (Option PyErr)
  | [] => (none, [])
  | f :: fs => (f, fs)

/-- One `cursor.execute` call: an injected fault raises; otherwise the store's
deterministic semantics answers. -/
def runExec (st : Store) (fault : Option PyErr) (sql : String) (params : List String) :
    Except PyErr Store :=
  match fault with
  | some e => .error e
  | none => execSem st sql params

/-- Embedding of `db_init` (spec name initDatabase): connect without selecting
a database; on connect failure return the fixed failure envelope; otherwise
execute the create-if-absent statement inside try/except/finally — the
`mysql.connector.Error` branch formats `err.msg`, the generic branch formats
the exception, and the finally block closes cursor and connection on every
path. -/
def db_init (reachable : Bool) (faults : List (Option PyErr)) (st : Store) : OpResult :=
  if reachable = false then
    { outcome := .ok { success := false, message := "Failed to connect to server for initialization.", data := none }
      store := st, events := [] }
  else
    let (f, _) := popFault faults
    match runExec st f createDbSql [] with
    | .ok st1 =>
      { outcome := .ok { success := true, message := "Database `python_db` created or already exists.", data := none }
        store := st1
        events := [.openConn, .execStmt createDbSql [], .closeCursor, .closeConn] }
    | .error (.dbErr _ m) =>
      { outcome := .ok { success := false, message := "Error during database creation: " ++ m, data := none }
        store := st
        events := [.openConn, .execStmt createDbSql [], .closeCursor, .closeConn] }
    | .error (.exc m) =>
      { outcome := .ok { success := false, message := "Failed to execute database creation query: " ++ m, data := none }
        store := st
        events := [.openConn, .execStmt createDbSql [], .closeCursor, .closeConn] }

/-- The trigger-fragment loop of `mysqli_logs_init`: for each fragment, strip
it; skip it when empty; otherwise execute it. The first raised exception
aborts the loop; statements already applied stay applied (no rollback).
Returns the exception if any, the store reached, the remaining fault list,
and the executed-statement events. -/
def execFragments (st : Store) (faults : List (Option PyErr)) :
    List String → Option PyErr × Store × List (Option PyErr) × List Event
  | [] => (none, st, faults, [])
  | query :: rest =>
    let q := pyStrip query
    if q = "" then execFragments st faults rest
    else
      let (f, fs) := popFault faults
      match runExec st f q [] with
      | .error e => (some e, st, fs, [.execStmt q []])
      | .ok st1 =>
        let (r, st2, fs2, evs) := execFragments st1 fs rest
        (r, st2, fs2, .execStmt q [] :: evs)

/-- Inner try of `mysqli_logs_init` around the table creation: a
`mysql.connector.Error` with errno `ER_TABLE_EXISTS_ERROR` is swallowed
(keeping the prior store), any other exception is re-raised. -/
def tableStep (st : Store) : Except PyErr Store → Except PyErr Store
  | .ok st1 => .ok st1
  | .error (.dbErr errno m) =>
    if errno = ER_TABLE_EXISTS_ERROR then .ok st else .error (.dbErr errno m)
  | .error (.exc m) => .error (.exc m)

/-- Embedding of `mysqli_logs_init` (spec name initLogSchema): connect to the
target database; execute `create_table_query` inside the inner try
(`tableStep`); then execute each nonempty stripped fragment of
`create_triggers_query.split(';')` in sequence; the outer catch-all handler
turns any exception into a failure envelope; the finally block closes cursor
and connection. -/
def mysqli_logs_init (reachable : Bool) (faults : List (Option PyErr)) (st : Store) : OpResult :=
  if reachable = false then
    { outcome := .ok { success := false, message := "Failed to connect to database for logs initialization.", data := none }
      store := st, events := [] }
  else
    let (f1, fs1) := popFault faults
    match tableStep st (runExec st f1 create_table_query []) with
    | .error e =>
      { outcome := .ok { success := false, message := "Failed to initialize logs/triggers: " ++ errText e, data := none }
        store := st
        events := [.openConn, .execStmt create_table_query [], .closeCursor, .closeConn] }
    | .ok st1 =>
      let (r, st2, _, evs) := execFragments st1 fs1 trigger_queries
      match r with
      | some e =>
        { outcome := .ok { success := false, message := "Failed to initialize logs/triggers: " ++ errText e, data := none }
          store := st2
          events := [.openConn, .execStmt create_table_query []] ++ evs ++ [.closeCursor, .closeConn] }
      | none =>
        { outcome := .ok { success := true, message := "Table and triggers initialized successfully.", data := none }
          store := st2
          events := [.openConn, .execStmt create_table_query []] ++ evs ++ [.closeCursor, .closeConn] }

/-- Embedding of `get_all_users` (spec name listUsers): connect to the target
database; execute the select, fetch all rows into the `data` field; the
catch-all handler turns any exception into a failure envelope; the finally
block closes cursor and connection; the single `return response` follows the
try/except/finally. -/
def get_all_users (reachable : Bool) (faults : List (Option PyErr)) (st : Store) : OpResult :=
  if reachable = false then
    { outcome := .ok { success := false, message := "Database connection failed.", data := none }
      store := st, events := [] }
  else
    let (f1, fs1) := popFault faults
    match runExec st f1 selectUsersSql [] with
    | .error e =>
      { outcome := .ok { success := false, message := "Failed to get users: " ++ errText e, data := none }
        store := st
        events := [.openConn, .execStmt selectUsersSql [], .closeCursor, .closeConn] }
    | .ok st1 =>
      let (f2, _) := popFault fs1
      match f2 with
      | some e =>
        { outcome := .ok { success := false, message := "Failed to get users: " ++ errText e, data := none }
          store := st1
          events := [.openConn, .execStmt selectUsersSql [], .fetchAll, .closeCursor, .closeConn] }
      | none =>
        { outcome := .ok { success := true, message := "Users fetched successfully.", data := some st1.users }
          store := st1
          events := [.openConn, .execStmt selectUsersSql [], .fetchAll, .closeCursor, .closeConn] }

/-- Embedding of the canonical `add_user`: connect to the target database
FIRST; on connect failure return the fixed failure envelope; THEN check the
required fields and, when one is empty, return the validation envelope — note
that this early return sits before the try/finally, so the opened connection
is not closed on that path; otherwise execute the parameterized insert and
commit inside try/except/finally (rollback in the except branch, close in the
finally branch). -/
def add_user (username password : String) (reachable : Bool)
    (faults : List (Option PyErr)) (st : Store) : OpResult :=
  if reachable = false then
    { outcome := .ok { success := false, message := "Database connection failed.", data := none }
      store := st, events := [] }
  else
    if username = "" ∨ password = "" then
      { outcome := .ok { success := false, message := "Missing required fields: username and/or password.", data := none }
        store := st, events := [.openConn] }
    else
      let (f1, fs1) := popFault faults
      match runExec st f1 addUserQuery [username, password] with
      | .error e =>
        { outcome := .ok { success := false, message := "Failed to add user " ++ username ++ ": " ++ errText e, data := none }
          store := st
          events := [.openConn, .execStmt addUserQuery [username, password], .rollback, .closeCursor, .closeConn] }
      | .ok st1 =>
        let (f2, _) := popFault fs1
        match f2 with
        | some e =>
          { outcome := .ok { success := false, message := "Failed to add user " ++ username ++ ": " ++ errText e, data := none }
            store := st
            events := [.openConn, .execStmt addUserQuery [username, password], .commit, .rollback, .closeCursor, .closeConn] }
        | none =>
          { outcome := .ok { success := true, message := "User " ++ username ++ " added successfully", data := none }
            store := st1
            events := [.openConn, .execStmt addUserQuery [username, password], .commit, .closeCursor, .closeConn] }

/-- Embedding of `delete_user_by_id` (spec name deleteUser): connect to the
target database FIRST; on connect failure return the fixed failure envelope;
THEN check `if not user_id` (so 0 is rejected) and, when it fails, return the
validation envelope — again before the try/finally, leaking the connection;
otherwise execute `DROP USER IF EXISTS %s@%s;` with the id and the fixed host
`localhost` as bound parameters and commit; rollback in the except branch,
close in the finally branch. -/
def delete_user_by_id (userId : Int) (reachable : Bool)
    (faults : List (Option PyErr)) (st : Store) : OpResult :=
  if reachable = false then
    { outcome := .ok { success := false, message := "Database connection failed.", data := none }
      store := st, events := [] }
  else
    if userId = 0 then
      { outcome := .ok { success := false, message := "Missing required field: username.", data := none }
        store := st, events := [.openConn] }
    else
      let (f1, fs1) := popFault faults
      match runExec st f1 dropUserSql [toString userId, "localhost"] with
      | .error e =>
        { outcome := .ok { success := false, message := "Failed to delete user " ++ toString userId ++ "@localhost: " ++ errText e, data := none }
          store := st
          events := [.openConn, .execStmt dropUserSql [toString userId, "localhost"], .rollback, .closeCursor, .closeConn] }
      | .ok st1 =>
        let (f2, _) := popFault fs1
        match f2 with
        | some e =>
          { outcome := .ok { success := false, message := "Failed to delete user " ++ toString userId ++ "@localhost: " ++ errText e, data := none }
            store := st
            events := [.openConn, .execStmt dropUserSql [toString userId, "localhost"], .commit, .rollback, .closeCursor, .closeConn] }
        | none =>
          { outcome := .ok { success := true, message := "Attempted to delete user " ++ toString userId ++ "@localhost.", data := none }
            store := st1
            events := [.openConn, .execStmt dropUserSql [toString userId, "localhost"], .commit, .closeCursor, .closeConn] }

/-- SQL texts of the statements executed in a trace, in order. -/
def execTexts (evs : List Event) : List String :=
  evs.filterMap (fun e => match e with | .execStmt sql _ => some sql | _ => none)

/-- The five DataAccessLayer operations the spec names, with their inputs. -/
inductive OpCall where
  | initDatabase
  | initLogSchema
  | listUsers
  | addUser (username password : String)
  | deleteUser (userId : Int)

/-- Dispatcher from the spec's operation names to the embedded functions. -/
def runOp : OpCall → Bool → List (Option PyErr) → Store → OpResult
  | .initDatabase, r, f, st => db_init r f st
  | .initLogSchema, r, f, st => mysqli_logs_init r f st
  | .listUsers, r, f, st => get_all_users r f st
  | .addUser u p, r, f, st => add_user u p r f st
  | .deleteUser i, r, f, st => delete_user_by_id i r f st

end MariaOps

namespace OldTask2

/-- SQL text built by the older `add_user` in
`src/src/task2/maria_operations.py`: the username and password are
interpolated directly into the statement text by an f-string, not bound as
parameters. -/
def addUserSql (username password : String) : String :=
  "INSERT INTO mysql.user (User, authentication_string, plugin) VALUES (" ++ username ++ ", PASSWORD(" ++ password ++ "), 'mysql_native_password');"

end OldTask2

/-!
Theorems settling the claims. Each claim theorem carries its claim id.
-/

namespace MariaOps

/-- Appending anything to a non-empty string yields a non-empty string; used
to show every failure message (a non-empty literal prefix followed by error
text) is non-empty. -/
theorem append_ne_empty (a b : String) (h : a ≠ "") : a ++ b ≠ "" := by
  intro hab
  apply h
  apply String.ext
  have hd : a.data ++ b.data = ([] : List Char) := by
    have hc := congrArg String.data hab
    rwa [String.data_append] at hc
  have ha : a.data = [] := (List.append_eq_nil.mp hd).1
  simpa using ha

/-- C1 (amended): for every username and password where at least one is
empty, when the connection succeeds `add_user` returns success=false with the
validation message and executes no statement — but, contrary to the claim as
stated, the connection is opened before the validation check runs: the whole
event trace of the call is exactly one `openConn`. -/
theorem C1_addUser_validation_opens_connection_first (u p : String)
    (faults : List (Option PyErr)) (st : Store) (h : u = "" ∨ p = "") :
    add_user u p true faults st =
      { outcome := .ok { success := false, message := "Missing required fields: username and/or password.", data := none }
        store := st
        events := [Event.openConn] } := by
  unfold add_user
  rw [if_neg (by decide : ¬(true = false)), if_pos h]

/-- C1 witness: the amended theorem applied at username = "", password = "pw"
on the empty store. -/
theorem C1_addUser_validation_witness :
    add_user "" "pw" true [] emptyStore =
      { outcome := .ok { success := false, message := "Missing required fields: username and/or password.", data := none }
        store := emptyStore
        events := [Event.openConn] } :=
  C1_addUser_validation_opens_connection_first "" "pw" [] emptyStore (Or.inl rfl)

/-- C1 counterexample: the claim says no connection is opened on the
validation path, but calling `add_user` with an empty username against a
reachable store opens one. -/
theorem C1_empty_username_still_opens_connection :
    Event.openConn ∈ (add_user "" "secret" true [] emptyStore).events := by decide

/-- C2 (code bug evidence): on the early validation-failure return of
`add_user` the opened connection is never closed — the trace of
`add_user "bob" ""` against a reachable store contains one `openConn` and no
`closeConn`, because the `return` sits before the try/finally block. -/
theorem C2_addUser_validation_path_leaks_connection :
    (add_user "bob" "" true [] emptyStore).events.count Event.openConn = 1 ∧
    (add_user "bob" "" true [] emptyStore).events.count Event.closeConn = 0 := by decide

/-- C3: for every operation, every input, every reachability outcome and
every injected store error, the outcome is an `OperationResponse` envelope —
no exception escapes the operation boundary. -/
theorem C3_no_exception_escapes_operation_boundary (c : OpCall) (reachable : Bool)
    (faults : List (Option PyErr)) (st : Store) :
    (runOp c reachable faults st).outcome.isOk = true := by
  cases c with
  | initDatabase =>
    simp only [runOp]
    unfold db_init
    repeat' split
    all_goals rfl
  | initLogSchema =>
    simp only [runOp]
    unfold mysqli_logs_init
    repeat' split
    all_goals rfl
  | listUsers =>
    simp only [runOp]
    unfold get_all_users
    repeat' split
    all_goals rfl
  | addUser u p =>
    simp only [runOp]
    unfold add_user
    repeat' split
    all_goals rfl
  | deleteUser i =>
    simp only [runOp]
    unfold delete_user_by_id
    repeat' split
    all_goals rfl

/-- C4: for every operation, input and store outcome, a returned response
with success=false carries no data and a non-empty message. -/
theorem C4_failure_envelope_no_data_nonempty_message (c : OpCall) (reachable : Bool)
    (faults : List (Option PyErr)) (st : Store) :
    (opResp (runOp c reachable faults st)).success = false →
      (opResp (runOp c reachable faults st)).data = none ∧
      (opResp (runOp c reachable faults st)).message ≠ "" := by
  cases c with
  | initDatabase =>
    simp only [runOp]
    unfold db_init
    repeat' split
    all_goals intro hfail
    all_goals first
      | exact Bool.noConfusion hfail
      | exact ⟨rfl, (by decide : "Failed to connect to server for initialization." ≠ "")⟩
      | exact ⟨rfl, (by decide : "Failed to connect to database for logs initialization." ≠ "")⟩
      | exact ⟨rfl, (by decide : "Database connection failed." ≠ "")⟩
      | exact ⟨rfl, (by decide : "Missing required fields: username and/or password." ≠ "")⟩
      | exact ⟨rfl, (by decide : "Missing required field: username." ≠ "")⟩
      | exact ⟨rfl, append_ne_empty _ _ (by decide)⟩
      | exact ⟨rfl, append_ne_empty _ _ (append_ne_empty _ _ (by decide))⟩
      | exact ⟨rfl, append_ne_empty _ _ (append_ne_empty _ _ (append_ne_empty _ _ (by decide)))⟩
  | initLogSchema =>
    simp only [runOp]
    unfold mysqli_logs_init
    repeat' split
    all_goals intro hfail
    all_goals first
      | exact Bool.noConfusion hfail
      | exact ⟨rfl, (by decide : "Failed to connect to server for initialization." ≠ "")⟩
      | exact ⟨rfl, (by decide : "Failed to connect to database for logs initialization." ≠ "")⟩
      | exact ⟨rfl, (by decide : "Database connection failed." ≠ "")⟩
      | exact ⟨rfl, (by decide : "Missing required fields: username and/or password." ≠ "")⟩
      | exact ⟨rfl, (by decide : "Missing required field: username." ≠ "")⟩
      | exact ⟨rfl, append_ne_empty _ _ (by decide)⟩
      | exact ⟨rfl, append_ne_empty _ _ (append_ne_empty _ _ (by decide))⟩
      | exact ⟨rfl, append_ne_empty _ _ (append_ne_empty _ _ (append_ne_empty _ _ (by decide)))⟩
  | listUsers =>
    simp only [runOp]
    unfold get_all_users
    repeat' split
    all_goals intro hfail
    all_goals first
      | exact Bool.noConfusion hfail
      | exact ⟨rfl, (by decide : "Failed to connect to server for initialization." ≠ "")⟩
      | exact ⟨rfl, (by decide : "Failed to connect to database for logs initialization." ≠ "")⟩
      | exact ⟨rfl, (by decide : "Database connection failed." ≠ "")⟩
      | exact ⟨rfl, (by decide : "Missing required fields: username and/or password." ≠ "")⟩
      | exact ⟨rfl, (by decide : "Missing required field: username." ≠ "")⟩
      | exact ⟨rfl, append_ne_empty _ _ (by decide)⟩
      | exact ⟨rfl, append_ne_empty _ _ (append_ne_empty _ _ (by decide))⟩
      | exact ⟨rfl, append_ne_empty _ _ (append_ne_empty _ _ (append_ne_empty _ _ (by decide)))⟩
  | addUser u p =>
    simp only [runOp]
    unfold add_user
    repeat' split
    all_goals intro hfail
    all_goals first
      | exact Bool.noConfusion hfail
      | exact ⟨rfl, (by decide : "Failed to connect to server for initialization." ≠ "")⟩
      | exact ⟨rfl, (by decide : "Failed to connect to database for logs initialization." ≠ "")⟩
      | exact ⟨rfl, (by decide : "Database connection failed." ≠ "")⟩
      | exact ⟨rfl, (by decide : "Missing required fields: username and/or password." ≠ "")⟩
      | exact ⟨rfl, (by decide : "Missing required field: username." ≠ "")⟩
      | exact ⟨rfl, append_ne_empty _ _ (by decide)⟩
      | exact ⟨rfl, append_ne_empty _ _ (append_ne_empty _ _ (by decide))⟩
      | exact ⟨rfl, append_ne_empty _ _ (append_ne_empty _ _ (append_ne_empty _ _ (by decide)))⟩
  | deleteUser i =>
    simp only [runOp]
    unfold delete_user_by_id
    repeat' split
    all_goals intro hfail
    all_goals first
      | exact Bool.noConfusion hfail
      | exact ⟨rfl, (by decide : "Failed to connect to server for initialization." ≠ "")⟩
      | exact ⟨rfl, (by decide : "Failed to connect to database for logs initialization." ≠ "")⟩
      | exact ⟨rfl, (by decide : "Database connection failed." ≠ "")⟩
      | exact ⟨rfl, (by decide : "Missing required fields: username and/or password." ≠ "")⟩
      | exact ⟨rfl, (by decide : "Missing required field: username." ≠ "")⟩
      | exact ⟨rfl, append_ne_empty _ _ (by decide)⟩
      | exact ⟨rfl, append_ne_empty _ _ (append_ne_empty _ _ (by decide))⟩
      | exact ⟨rfl, append_ne_empty _ _ (append_ne_empty _ _ (append_ne_empty _ _ (by decide)))⟩

/-- C4 witness: the failing call `add_user "" "x"` (validation failure on a
reachable store) has success=false, and the theorem instantiated there gives
data = none and a non-empty message. -/
theorem C4_failure_envelope_witness :
    (opResp (runOp (OpCall.addUser "" "x") true [] emptyStore)).data = none ∧
    (opResp (runOp (OpCall.addUser "" "x") true [] emptyStore)).message ≠ "" :=
  C4_failure_envelope_no_data_nonempty_message (OpCall.addUser "" "x") true [] emptyStore (by decide)

/-- C5: for every non-zero id and every store state, `delete_user_by_id`
against a reachable, fault-free store returns success=true (whether or not a
matching user exists — the store state is universally quantified), and the
second call in sequence on the resulting store returns success=true again. -/
theorem C5_deleteUser_idempotent_success (userId : Int) (st : Store) (h : userId ≠ 0) :
    (opResp (delete_user_by_id userId true [] st)).success = true ∧
    (opResp (delete_user_by_id userId true []
        (delete_user_by_id userId true [] st).store)).success = true := by
  have key : ∀ s : Store, (opResp (delete_user_by_id userId true [] s)).success = true := by
    intro s
    unfold delete_user_by_id
    rw [if_neg (by decide : ¬(true = false)), if_neg h]
    rfl
  exact ⟨key st, key _⟩

/-- C5 witness: the theorem applied at id = 7 on the empty store (no user 7
exists, both calls still succeed). -/
theorem C5_deleteUser_witness :
    (opResp (delete_user_by_id 7 true [] emptyStore)).success = true ∧
    (opResp (delete_user_by_id 7 true []
        (delete_user_by_id 7 true [] emptyStore).store)).success = true :=
  C5_deleteUser_idempotent_success 7 emptyStore (by decide)

/-- C6: `db_init` against a reachable, fault-free store returns success=true
for every store state (so whether or not `python_db` already exists), and
calling it twice in sequence returns success=true both times. -/
theorem C6_initDatabase_idempotent_success (st : Store) :
    (opResp (db_init true [] st)).success = true ∧
    (opResp (db_init true [] (db_init true [] st).store)).success = true :=
  ⟨rfl, rfl⟩

/-- C7 (code bug evidence): splitting `create_triggers_query` on every
semicolon cuts each trigger body apart — the second stripped fragment is a
`CREATE TRIGGER` header whose `BEGIN` body stops before `END` (cut at the
semicolon inside the body), the third is the bare string "END", and running
`mysqli_logs_init` against a reachable fault-free store therefore fails. -/
theorem C7_trigger_split_produces_incomplete_statements :
    (trigger_queries.map pyStrip).getD 1 "" =
      "CREATE TRIGGER after_user_insert\n            AFTER INSERT ON mysqli_users\n            FOR EACH ROW\n            BEGIN\n                INSERT INTO mysqli_logs (user_id, action_type)\n                VALUES (NEW.id, 'INSERT')" ∧
    (trigger_queries.map pyStrip).getD 2 "" = "END" ∧
    (opResp (mysqli_logs_init true [] emptyStore)).success = false := by decide

/-- C8 (code bug evidence): the older `add_user` of
`src/src/task2/maria_operations.py` interpolates the credentials into the SQL
text, so two calls with different credentials build different SQL text —
while the canonical `add_user` of `src/task2` submits the identical constant
statement text for both calls (only the bound parameters differ). -/
theorem C8_old_addUser_sql_text_depends_on_credentials :
    OldTask2.addUserSql "alice" "secret" ≠ OldTask2.addUserSql "bob" "hunter2" ∧
    execTexts (add_user "alice" "secret" true [] emptyStore).events =
      execTexts (add_user "bob" "hunter2" true [] emptyStore).events := by decide

/-- C9 counterexample: the response message of `delete_user_by_id 9999` on a
reachable store without user 9999 is not the claimed
"Attempted to delete user 9999." — the code appends the host. -/
theorem C9_delete_message_includes_host_counterexample :
    (opResp (delete_user_by_id 9999 true [] emptyStore)).message ≠
      "Attempted to delete user 9999." := by decide

/-- C9 (amended): `delete_user_by_id 9999` on a reachable store without user
9999 returns exactly success=true with message
"Attempted to delete user 9999@localhost.". -/
theorem C9_delete_9999_response_amended :
    opResp (delete_user_by_id 9999 true [] emptyStore) =
      { success := true, message := "Attempted to delete user 9999@localhost.", data := none } := by decide

/-- C10: for every store state in which no user "alice"@"localhost" exists
(so the insert succeeds), `add_user "alice" "secret"` against a reachable
fault-free store returns success=true with message
"User alice added successfully", and a subsequent `get_all_users` on the
resulting store returns success=true with data containing the record
("alice", "localhost"). -/
theorem C10_addUser_then_listUsers_contains_alice (st : Store)
    (h : st.users.any (fun r => r.username == "alice" && r.host == "localhost") = false) :
    opResp (add_user "alice" "secret" true [] st) =
      { success := true, message := "User alice added successfully", data := none } ∧
    opResp (get_all_users true [] (add_user "alice" "secret" true [] st).store) =
      { success := true, message := "Users fetched successfully."
        data := some (st.users ++ [{ username := "alice", host := "localhost" }]) } ∧
    ({ username := "alice", host := "localhost" } : UserRecord) ∈
      (opResp (get_all_users true [] (add_user "alice" "secret" true [] st).store)).data.getD [] := by
  have hsem : execSem st addUserQuery ["alice", "secret"] =
      .ok { st with users := st.users ++ [{ username := "alice", host := "localhost" }] } := by
    have e1 : execSem st addUserQuery ["alice", "secret"] =
        if st.users.any (fun r => r.username == "alice" && r.host == "localhost") then
          .error (.dbErr 1062 ("Duplicate entry '" ++ "alice" ++ "-localhost' for key 'PRIMARY'"))
        else .ok { st with users := st.users ++ [{ username := "alice", host := "localhost" }] } := rfl
    rw [e1, h]
    rfl
  have hadd : add_user "alice" "secret" true [] st =
      { outcome := .ok { success := true, message := "User alice added successfully", data := none }
        store := { st with users := st.users ++ [{ username := "alice", host := "localhost" }] }
        events := [.openConn, .execStmt addUserQuery ["alice", "secret"], .commit, .closeCursor, .closeConn] } := by
    unfold add_user
    rw [if_neg (by decide : ¬(true = false)), if_neg (by decide : ¬("alice" = "" ∨ "secret" = ""))]
    simp only [popFault, runExec]
    rw [hsem]
    rfl
  refine ⟨?_, ?_, ?_⟩
  · rw [hadd]
    rfl
  · rw [hadd]
    rfl
  · rw [hadd]
    exact List.mem_append.mpr (Or.inr (List.mem_singleton.mpr rfl))

/-- C10 witness: the theorem applied at the empty store, where no alice
record exists. -/
theorem C10_addUser_witness :
    opResp (add_user "alice" "secret" true [] emptyStore) =
      { success := true, message := "User alice added successfully", data := none } ∧
    opResp (get_all_users true [] (add_user "alice" "secret" true [] emptyStore).store) =
      { success := true, message := "Users fetched successfully."
        data := some (emptyStore.users ++ [{ username := "alice", host := "localhost" }]) } ∧
    ({ username := "alice", host := "localhost" } : UserRecord) ∈
      (opResp (get_all_users true [] (add_user "alice" "secret" true [] emptyStore).store)).data.getD [] :=
  C10_addUser_then_listUsers_contains_alice emptyStore rfl

end MariaOps
